import Mathlib

/-!
Verification of the newsletter sign-up form controller
(`src/newsletter-sign-up-with-success-message-main/sample.js`).

The script wires five DOM regions (email input, submit button, error
message, success message with an email display, dismiss button) to three
event handlers (input, click on submit / Enter keypress, click on
dismiss).  We embed the mutable DOM surface touched by the script as the
record `DomState` and each handler as a state transformer; the email
regex `^[^\s@]+@[^\s@]+\.[a-z]{2,}$/i` is embedded by its match
semantics (an existential over decompositions of the character list,
made executable by searching over the positions of `@` and `.`).
-/

/-- Character class `\s` of JavaScript regular expressions:
tab, line feed, vertical tab, form feed, carriage return, space,
no-break space, ogham space mark, the U+2000..U+200A range, line and
paragraph separators, narrow no-break space, medium mathematical space,
ideographic space and the byte-order mark. -/
def isJsWhitespace (c : Char) : Bool :=
  c.toNat == 0x9 || c.toNat == 0xa || c.toNat == 0xb || c.toNat == 0xc ||
  c.toNat == 0xd || c.toNat == 0x20 || c.toNat == 0xa0 || c.toNat == 0x1680 ||
  (0x2000 ≤ c.toNat && c.toNat ≤ 0x200a) || c.toNat == 0x2028 ||
  c.toNat == 0x2029 || c.toNat == 0x202f || c.toNat == 0x205f ||
  c.toNat == 0x3000 || c.toNat == 0xfeff

/-- Character class `[^\s@]` of the email regex: any character that is
neither JavaScript whitespace nor `@`. -/
def isAtomChar (c : Char) : Bool :=
  !(isJsWhitespace c) && !(c == '@')

/-- Character class `[a-z]` under the `i` (ignore-case) flag of the email
regex: an ASCII letter, lower or upper case. -/
def isAlphaChar (c : Char) : Bool :=
  ('a'.toNat ≤ c.toNat && c.toNat ≤ 'z'.toNat) ||
  ('A'.toNat ≤ c.toNat && c.toNat ≤ 'Z'.toNat)

/-- `isValidEmail` from `sample.js` lines 29-46: tests the string against
the anchored regex `^[^\s@]+@[^\s@]+\.[a-z]{2,}$` with the ignore-case
flag.  A string matches exactly when it decomposes as
`local ++ "@" ++ domain ++ "." ++ tld` with `local` and `domain` nonempty
runs of `[^\s@]` characters and `tld` two or more letters; here `i` ranges
over candidate positions of the `@` matched by the regex and `j` over
candidate positions of the `.`. -/
def isValidEmail (s : String) : Bool :=
  let cs := s.data
  let n := cs.length
  (List.range n).any fun i =>
    (List.range n).any fun j =>
      decide (1 ≤ i) && decide (i + 1 < j) && decide (j + 3 ≤ n) &&
      (cs.getD i ' ' == '@') && (cs.getD j ' ' == '.') &&
      (cs.take i).all isAtomChar &&
      ((cs.drop (i + 1)).take (j - (i + 1))).all isAtomChar &&
      (cs.drop (j + 1)).all isAlphaChar

/-- The email shape as the specification words it: strings of the form
`local@domain.tld` where `local` and `domain` each consist of one or more
non-whitespace, non-`@` characters, followed by a literal `.`, followed
by two or more alphabetic characters, anchored at both ends. -/
def emailShapeSpec (s : String) : Prop :=
  ∃ l d t : String,
    s = l ++ "@" ++ d ++ "." ++ t ∧
    l ≠ "" ∧ (∀ c ∈ l.data, isAtomChar c = true) ∧
    d ≠ "" ∧ (∀ c ∈ d.data, isAtomChar c = true) ∧
    2 ≤ t.length ∧ (∀ c ∈ t.data, isAlphaChar c = true)

/-- The part of the DOM surface that `sample.js` reads or writes:
the input value, the error region's text and visibility, the input's
border and background colors, the visibility of the `main-area` region
and of the header image, whether the success region carries the `hidden`
class, and the text of the email display region. -/
structure DomState where
  emailValue : String
  errorText : String
  errorDisplay : Bool
  borderColor : String
  backgroundColor : String
  mainDisplay : Bool
  headerDisplay : Bool
  successHidden : Bool
  emailDisplayText : String
  deriving DecidableEq

/-- `showError` from `sample.js` lines 52-68: writes the message into the
error region, makes it visible, and paints the input's border and
background with the error colors. -/
def showError (message : String) (s : DomState) : DomState :=
  { s with
    errorText := message
    errorDisplay := true
    borderColor := "#FF6155"
    backgroundColor := "#FFE8E6" }

/-- `clearError` from `sample.js` lines 74-86: empties and hides the
error region and restores the input's neutral border and background. -/
def clearError (s : DomState) : DomState :=
  { s with
    errorText := ""
    errorDisplay := false
    borderColor := "hsl(0, 0%, 58%)"
    backgroundColor := "transparent" }

/-- The `input` event handler from `sample.js` lines 93-99: the event
fires after the input's value has changed to `v`, and the handler calls
`clearError`. -/
def inputHandler (v : String) (s : DomState) : DomState :=
  clearError { s with emailValue := v }

/-- `showSuccessMessage` from `sample.js` lines 142-163: hides the
`main-area` region and the header image, removes the `hidden` class from
the success region, writes the submitted email into the display region,
and clears the input value.  It does not touch the error region or the
input's colors. -/
def showSuccessMessage (email : String) (s : DomState) : DomState :=
  { s with
    mainDisplay := false
    headerDisplay := false
    successHidden := false
    emailDisplayText := email
    emailValue := "" }

/-- The submit button's `click` handler from `sample.js` lines 105-136
(after `event.preventDefault()`): reads the input value, shows the
required-field error on the empty string, the invalid-format error when
the regex rejects, and otherwise shows the success message. -/
def submitStep (s : DomState) : DomState :=
  let email := s.emailValue
  if email = "" then
    showError "Email is required" s
  else if !(isValidEmail email) then
    showError "Please enter a valid email address" s
  else
    showSuccessMessage email s

/-- The dismiss button's `click` handler from `sample.js` lines 169-183:
adds the `hidden` class back to the success region, restores the
`main-area` region and the header image to `display: block`, and calls
`clearError`. -/
def dismissStep (s : DomState) : DomState :=
  clearError
    { s with
      successHidden := true
      mainDisplay := true
      headerDisplay := true }

/-- Result of dispatching one event: the new DOM state together with
whether the handling path called `preventDefault` on the dispatched
submit click (suppressing the default navigation behavior). -/
structure Outcome where
  state : DomState
  preventedNav : Bool
  deriving DecidableEq

/-- Activating the submit control: the `click` handler runs, calling
`event.preventDefault()` (line 108) before validating. -/
def submitTrigger (s : DomState) : Outcome :=
  { state := submitStep s, preventedNav := true }

/-- The `keypress` handler from `sample.js` lines 190-201: when the
pressed key is `Enter` it programmatically clicks the submit button,
which dispatches the submit `click` handler; any other key leaves the
state alone and prevents nothing. -/
def keypressHandler (key : String) (s : DomState) : Outcome :=
  if key = "Enter" then submitTrigger s
  else { state := s, preventedNav := false }

/-- Modelled from the spec: the initial page state, determined by the
HTML/CSS files which are not part of the source tree.  On load the form
(`main-area`) and header image are visible, the success region carries
the `hidden` class, the error region is empty and hidden by default, the
input is empty with its neutral border and background, and the display
region is empty. -/
def initState : DomState :=
  { emailValue := ""
    errorText := ""
    errorDisplay := false
    borderColor := "hsl(0, 0%, 58%)"
    backgroundColor := "transparent"
    mainDisplay := true
    headerDisplay := true
    successHidden := true
    emailDisplayText := "" }

/-- The three user-visible triggers of the controller. -/
inductive Trigger where
  | inputChange (v : String)
  | submit
  | dismiss
  deriving DecidableEq

/-- Dispatch one trigger to its handler. -/
def step (t : Trigger) (s : DomState) : DomState :=
  match t with
  | .inputChange v => inputHandler v s
  | .submit => submitStep s
  | .dismiss => dismissStep s

/-- Run a sequence of triggers from a state. -/
def run (ts : List Trigger) (s : DomState) : DomState :=
  ts.foldl (fun s t => step t s) s

/-- Error state `NoError`: error text empty and hidden, input decoration
neutral. -/
def noError (s : DomState) : Bool :=
  s.errorText == "" && !s.errorDisplay &&
  s.borderColor == "hsl(0, 0%, 58%)" && s.backgroundColor == "transparent"

/-- Error state `ErrorShown msg`: the message displayed in the visible
error region, with the error decoration on the input. -/
def errorShown (msg : String) (s : DomState) : Bool :=
  s.errorText == msg && s.errorDisplay &&
  s.borderColor == "#FF6155" && s.backgroundColor == "#FFE8E6"

/-- A state with the invalid-format error displayed while the input
already holds a shape-valid address.  No trigger sequence produces this
state, but it is expressible on the DOM surface. -/
def errorThenValidState : DomState :=
  { emailValue := "a@b.co"
    errorText := "Please enter a valid email address"
    errorDisplay := true
    borderColor := "#FF6155"
    backgroundColor := "#FFE8E6"
    mainDisplay := true
    headerDisplay := true
    successHidden := true
    emailDisplayText := "" }

/-- Invariant threaded through every trigger: the `main-area` region is
visible exactly when the success region carries the `hidden` class. -/
theorem view_inv_step (t : Trigger) (s : DomState)
    (h : s.mainDisplay = s.successHidden) :
    (step t s).mainDisplay = (step t s).successHidden := by
  cases t with
  | inputChange v => simpa [step, inputHandler, clearError] using h
  | submit =>
    by_cases he : s.emailValue = ""
    · simpa [step, submitStep, he, showError] using h
    · by_cases hv : isValidEmail s.emailValue
      · simp [step, submitStep, he, hv, showSuccessMessage]
      · simpa [step, submitStep, he, hv, showError] using h
  | dismiss => simp [step, dismissStep, clearError]

/-- The visibility invariant is preserved by any trigger sequence. -/
theorem view_inv_run (ts : List Trigger) (s : DomState)
    (h : s.mainDisplay = s.successHidden) :
    (run ts s).mainDisplay = (run ts s).successHidden := by
  induction ts generalizing s with
  | nil => exact h
  | cons t ts ih => exact ih (step t s) (view_inv_step t s h)

/-- Error-state invariant: whenever the error region or decoration is
not in its neutral state, the current input value is empty or fails the
shape check. -/
def errInv (s : DomState) : Prop :=
  noError s = true ∨ s.emailValue = "" ∨ isValidEmail s.emailValue = false

/-- The error-state invariant is preserved by every trigger. -/
theorem errInv_step (t : Trigger) (s : DomState) (_h : errInv s) :
    errInv (step t s) := by
  cases t with
  | inputChange v =>
    left; simp [step, inputHandler, clearError, noError]
  | submit =>
    by_cases he : s.emailValue = ""
    · right; left; simp [step, submitStep, he, showError]
    · by_cases hv : isValidEmail s.emailValue
      · right; left; simp [step, submitStep, he, hv, showSuccessMessage]
      · right; right
        simp [step, submitStep, he, hv, showError]
  | dismiss =>
    left; simp [step, dismissStep, clearError, noError]

/-- The error-state invariant is preserved by any trigger sequence. -/
theorem errInv_run (ts : List Trigger) (s : DomState) (h : errInv s) :
    errInv (run ts s) := by
  induction ts generalizing s with
  | nil => exact h
  | cons t ts ih => exact ih (step t s) (errInv_step t s h)

/-- C2: submitting with the empty string shows the `Email is required`
error with the error decoration, and submitting a non-empty value that
fails the shape check shows the `Please enter a valid email address`
error with the same decoration; in both cases the handler performs no
view transition: the `main-area` and header visibility and the `hidden`
class on the success region are left exactly as they were. -/
theorem submit_invalid_shows_error (s : DomState) :
    (s.emailValue = "" →
      errorShown "Email is required" (submitStep s) = true ∧
      (submitStep s).mainDisplay = s.mainDisplay ∧
      (submitStep s).headerDisplay = s.headerDisplay ∧
      (submitStep s).successHidden = s.successHidden) ∧
    (s.emailValue ≠ "" → isValidEmail s.emailValue = false →
      errorShown "Please enter a valid email address" (submitStep s) = true ∧
      (submitStep s).mainDisplay = s.mainDisplay ∧
      (submitStep s).headerDisplay = s.headerDisplay ∧
      (submitStep s).successHidden = s.successHidden) := by
  constructor
  · intro he
    simp [submitStep, he, showError, errorShown]
  · intro he hv
    simp [submitStep, he, hv, showError, errorShown]

/-- Witness for C2 at concrete states: the empty initial state and a
state holding the malformed value `abc`. -/
theorem submit_invalid_shows_error_witness :
    errorShown "Email is required" (submitStep initState) = true ∧
    errorShown "Please enter a valid email address"
      (submitStep { initState with emailValue := "abc" }) = true :=
  ⟨((submit_invalid_shows_error initState).1 rfl).1,
   ((submit_invalid_shows_error { initState with emailValue := "abc" }).2
      (by decide) (by decide)).1⟩

/-- C3: submitting a value that passes the shape check hides the
`main-area` region and the header image, reveals the success region,
writes the submitted value into the display region, and clears the
input value. -/
theorem submit_valid_success (s : DomState)
    (h : isValidEmail s.emailValue = true) :
    (submitStep s).mainDisplay = false ∧
    (submitStep s).headerDisplay = false ∧
    (submitStep s).successHidden = false ∧
    (submitStep s).emailDisplayText = s.emailValue ∧
    (submitStep s).emailValue = "" := by
  have hne : s.emailValue ≠ "" := by
    intro he
    rw [he] at h
    exact absurd h (by decide)
  simp [submitStep, hne, h, showSuccessMessage]

/-- Witness for C3 at the concrete value `user@example.com`. -/
theorem submit_valid_success_witness :
    (submitStep { initState with emailValue := "user@example.com" }).mainDisplay = false ∧
    (submitStep { initState with emailValue := "user@example.com" }).headerDisplay = false ∧
    (submitStep { initState with emailValue := "user@example.com" }).successHidden = false ∧
    (submitStep { initState with emailValue := "user@example.com" }).emailDisplayText =
      DomState.emailValue { initState with emailValue := "user@example.com" } ∧
    (submitStep { initState with emailValue := "user@example.com" }).emailValue = "" :=
  submit_valid_success { initState with emailValue := "user@example.com" } (by decide)

/-- C4: in every state reachable from the initial state by input-change,
submit and dismiss triggers, exactly one of the form region and the
success region is visible: either the `main-area` is shown and the
success region carries the `hidden` class, or the `main-area` is hidden
and the success region does not carry it. -/
theorem form_success_exclusive (ts : List Trigger) :
    ((run ts initState).mainDisplay = true ∧
      (run ts initState).successHidden = true) ∨
    ((run ts initState).mainDisplay = false ∧
      (run ts initState).successHidden = false) := by
  have h := view_inv_run ts initState rfl
  by_cases hm : (run ts initState).mainDisplay = true
  · left
    exact ⟨hm, by rw [← h, hm]⟩
  · right
    have hm' : (run ts initState).mainDisplay = false := by simpa using hm
    exact ⟨hm', by rw [← h, hm']⟩

/-- C5: an input-change trigger clears the error state unconditionally,
whatever the new value is: afterwards the error text is empty and
hidden and the input decoration is neutral, the input value is the new
value, and when the error state was already `NoError` the handler
changes nothing but the value. -/
theorem input_change_clears_error (s : DomState) (v : String) :
    noError (inputHandler v s) = true ∧
    (inputHandler v s).emailValue = v ∧
    (noError s = true → inputHandler v s = { s with emailValue := v }) := by
  refine ⟨by simp [inputHandler, clearError, noError],
    by simp [inputHandler, clearError], ?_⟩
  intro h
  simp only [noError, Bool.and_eq_true, beq_iff_eq, Bool.not_eq_true'] at h
  obtain ⟨⟨⟨h1, h2⟩, h3⟩, h4⟩ := h
  cases s
  simp_all [inputHandler, clearError]

/-- Witness for C5: typing `abc` into the pristine initial state. -/
theorem input_change_clears_error_witness :
    noError (inputHandler "abc" initState) = true ∧
    (inputHandler "abc" initState).emailValue = "abc" ∧
    inputHandler "abc" initState = { initState with emailValue := "abc" } :=
  ⟨(input_change_clears_error initState "abc").1,
   (input_change_clears_error initState "abc").2.1,
   (input_change_clears_error initState "abc").2.2 (by decide)⟩

/-- C6: pressing Enter in the input produces exactly the outcome of
activating the submit control — the same resulting state, with default
navigation suppressed on both trigger paths. -/
theorem enter_equals_submit (s : DomState) :
    keypressHandler "Enter" s = submitTrigger s ∧
    (keypressHandler "Enter" s).preventedNav = true ∧
    (submitTrigger s).preventedNav = true :=
  ⟨rfl, rfl, rfl⟩

/-- C7: from a state where the success region is visible, the dismiss
trigger hides the success region, re-reveals the `main-area` region and
the header image, and leaves the error state `NoError`. -/
theorem dismiss_restores_form (s : DomState) (_h : s.successHidden = false) :
    (dismissStep s).successHidden = true ∧
    (dismissStep s).mainDisplay = true ∧
    (dismissStep s).headerDisplay = true ∧
    noError (dismissStep s) = true := by
  simp [dismissStep, clearError, noError]

/-- Witness for C7: dismissing right after a successful submission. -/
theorem dismiss_restores_form_witness :
    (dismissStep (showSuccessMessage "a@b.co" initState)).successHidden = true ∧
    (dismissStep (showSuccessMessage "a@b.co" initState)).mainDisplay = true ∧
    (dismissStep (showSuccessMessage "a@b.co" initState)).headerDisplay = true ∧
    noError (dismissStep (showSuccessMessage "a@b.co" initState)) = true :=
  dismiss_restores_form (showSuccessMessage "a@b.co" initState) rfl

/-- C8 as stated is violated by the code: `showSuccessMessage` never
touches the error region or the input decoration, so from a state that
shows the invalid-format error while the input holds a shape-valid
value, a successful submit reveals the success region yet leaves the
full error state displayed. -/
theorem success_submit_error_persists :
    errorShown "Please enter a valid email address" errorThenValidState = true ∧
    isValidEmail errorThenValidState.emailValue = true ∧
    (submitStep errorThenValidState).successHidden = false ∧
    noError (submitStep errorThenValidState) = false ∧
    errorShown "Please enter a valid email address"
      (submitStep errorThenValidState) = true := by
  decide

/-- C8 amended: in every state reachable by the triggers, immediately
after a submit that succeeds the error state is `NoError` — not because
the success path resets it, but because an error can only be displayed
while the input value is empty or fails the shape check, so a reachable
successful submit starts from `NoError` and the success path leaves the
error fields unchanged. -/
theorem reachable_success_no_error (ts : List Trigger)
    (h : isValidEmail (run ts initState).emailValue = true) :
    noError (submitStep (run ts initState)) = true := by
  have hinv : errInv (run ts initState) :=
    errInv_run ts initState (Or.inl (by decide))
  have hne : (run ts initState).emailValue ≠ "" := by
    intro he
    rw [he] at h
    exact absurd h (by decide)
  have hno : noError (run ts initState) = true := by
    rcases hinv with h1 | h2 | h3
    · exact h1
    · exact absurd h2 hne
    · rw [h] at h3
      cases h3
  simp only [submitStep, hne, h, if_false, ite_false, Bool.not_true,
    if_neg hne]
  simpa [showSuccessMessage, noError] using hno

/-- Witness for the amended C8: type a valid address, then submit. -/
theorem reachable_success_no_error_witness :
    noError (submitStep (run [Trigger.inputChange "a@b.co"] initState)) = true :=
  reachable_success_no_error [Trigger.inputChange "a@b.co"] (by decide)

/-- C9: a submit that fails validation (empty or malformed value)
leaves the input value, the display region's text and all three view
visibilities unchanged; only the error region and input decoration are
touched. -/
theorem submit_invalid_frame (s : DomState)
    (h : s.emailValue = "" ∨ isValidEmail s.emailValue = false) :
    (submitStep s).emailValue = s.emailValue ∧
    (submitStep s).emailDisplayText = s.emailDisplayText ∧
    (submitStep s).mainDisplay = s.mainDisplay ∧
    (submitStep s).headerDisplay = s.headerDisplay ∧
    (submitStep s).successHidden = s.successHidden := by
  rcases h with h | h
  · simp [submitStep, h, showError]
  · by_cases he : s.emailValue = ""
    · simp [submitStep, he, showError]
    · simp [submitStep, he, h, showError]

/-- Witness for C9: submitting the empty initial state. -/
theorem submit_invalid_frame_witness :
    (submitStep initState).emailValue = initState.emailValue ∧
    (submitStep initState).emailDisplayText = initState.emailDisplayText ∧
    (submitStep initState).mainDisplay = initState.mainDisplay ∧
    (submitStep initState).headerDisplay = initState.headerDisplay ∧
    (submitStep initState).successHidden = initState.successHidden :=
  submit_invalid_frame initState (Or.inl rfl)

/-- C10: the dismiss trigger leaves both the input value and the display
region's text unchanged, and the display text is only overwritten by the
next successful submission. -/
theorem dismiss_frame (s : DomState) (v : String) :
    (dismissStep s).emailValue = s.emailValue ∧
    (dismissStep s).emailDisplayText = s.emailDisplayText ∧
    (showSuccessMessage v (dismissStep s)).emailDisplayText = v := by
  simp [dismissStep, clearError, showSuccessMessage]

/-- A character list splits at the positions of its `@` (index `i`) and a
later `.` (index `j`) into the local part, the domain part and the
trailing segment. -/
theorem decomp_of_indices (cs : List Char) (i j : Nat)
    (hi : i < cs.length) (hj : j < cs.length) (hij : i + 1 < j)
    (hat : cs[i] = '@') (hdot : cs[j] = '.') :
    cs = cs.take i ++ '@' ::
      ((cs.drop (i + 1)).take (j - (i + 1)) ++ '.' :: cs.drop (j + 1)) := by
  conv_lhs => rw [← List.take_append_drop i cs]
  congr 1
  rw [List.drop_eq_getElem_cons hi, hat]
  congr 1
  conv_lhs => rw [← List.take_append_drop (j - (i + 1)) (cs.drop (i + 1))]
  congr 1
  rw [List.drop_drop]
  have hjj : i + 1 + (j - (i + 1)) = j := by omega
  rw [hjj, List.drop_eq_getElem_cons hj, hdot]

/-- The index-searching embedding of the regex test agrees with the
decomposition of the string into `local@domain.tld`. -/
theorem isValidEmail_iff (s : String) :
    isValidEmail s = true ↔ emailShapeSpec s := by
  constructor
  · intro h
    simp only [isValidEmail, List.any_eq_true, List.mem_range, Bool.and_eq_true,
      decide_eq_true_iff, beq_iff_eq, List.all_eq_true] at h
    obtain ⟨i, hi, j, hj, ⟨⟨⟨⟨⟨⟨⟨h1i, hij⟩, hjn⟩, hat⟩, hdot⟩, hl⟩, hd⟩, ht⟩⟩ := h
    rw [List.getD_eq_getElem _ _ hi] at hat
    rw [List.getD_eq_getElem _ _ hj] at hdot
    have hdec := decomp_of_indices s.data i j hi hj hij hat hdot
    refine ⟨⟨s.data.take i⟩, ⟨(s.data.drop (i + 1)).take (j - (i + 1))⟩,
      ⟨s.data.drop (j + 1)⟩, ?_, ?_, hl, ?_, hd, ?_, ht⟩
    · apply String.ext
      simp only [String.data_append]
      simpa using hdec
    · intro hnil
      have h0 : s.data.take i = [] := congrArg String.data hnil
      have h1 : (s.data.take i).length = 0 := by rw [h0]; rfl
      rw [List.length_take] at h1
      omega
    · intro hnil
      have h0 : (s.data.drop (i + 1)).take (j - (i + 1)) = [] :=
        congrArg String.data hnil
      have h1 : ((s.data.drop (i + 1)).take (j - (i + 1))).length = 0 := by
        rw [h0]; rfl
      rw [List.length_take, List.length_drop] at h1
      omega
    · show 2 ≤ (s.data.drop (j + 1)).length
      rw [List.length_drop]
      omega
  · rintro ⟨l, d, t, heq, hl0, hl, hd0, hd, ht2, ht⟩
    have hdata : s.data = l.data ++ '@' :: (d.data ++ '.' :: t.data) := by
      rw [heq]
      simp [String.data_append]
    have hlne : l.data ≠ [] := fun hh => hl0 (String.ext (by simp [hh]))
    have hdne : d.data ≠ [] := fun hh => hd0 (String.ext (by simp [hh]))
    have hl1 : 1 ≤ l.data.length := List.length_pos.mpr hlne
    have hd1 : 1 ≤ d.data.length := List.length_pos.mpr hdne
    have ht2' : 2 ≤ t.data.length := ht2
    have hn : s.data.length
        = l.data.length + 1 + d.data.length + 1 + t.data.length := by
      rw [hdata]
      simp [List.length_append]
      omega
    have hdata2 : s.data = (l.data ++ '@' :: d.data) ++ '.' :: t.data := by
      rw [hdata]
      simp
    have hdata3 : s.data = (l.data ++ ['@']) ++ (d.data ++ '.' :: t.data) := by
      rw [hdata]
      simp
    have hdata4 : s.data = ((l.data ++ '@' :: d.data) ++ ['.']) ++ t.data := by
      rw [hdata]
      simp
    simp only [isValidEmail, List.any_eq_true, List.mem_range, Bool.and_eq_true,
      decide_eq_true_iff, beq_iff_eq, List.all_eq_true]
    refine ⟨l.data.length, by omega, l.data.length + 1 + d.data.length, by omega,
      ⟨⟨⟨⟨⟨⟨⟨by omega, by omega⟩, by omega⟩, ?_⟩, ?_⟩, ?_⟩, ?_⟩, ?_⟩⟩
    · rw [hdata, List.getD_append_right _ _ _ _ (le_refl _), Nat.sub_self]
      rfl
    · rw [hdata2,
        List.getD_append_right _ _ _ _
          (by rw [List.length_append, List.length_cons]; omega)]
      have h0 : l.data.length + 1 + d.data.length
          - (l.data ++ '@' :: d.data).length = 0 := by
        rw [List.length_append, List.length_cons]
        omega
      rw [h0]
      rfl
    · rw [hdata, List.take_left' rfl]
      exact hl
    · have hdrop : s.data.drop (l.data.length + 1) = d.data ++ '.' :: t.data := by
        rw [hdata3, List.drop_left' (by rw [List.length_append]; rfl)]
      rw [hdrop]
      have h0 : l.data.length + 1 + d.data.length - (l.data.length + 1)
          = d.data.length := by
        omega
      rw [h0, List.take_left' rfl]
      exact hd
    · have hlen : ((l.data ++ '@' :: d.data) ++ ['.']).length
          = l.data.length + 1 + d.data.length + 1 := by
        simp [List.length_append]
        omega
      have hdrop : s.data.drop (l.data.length + 1 + d.data.length + 1)
          = t.data := by
        rw [hdata4, List.drop_left' hlen]
      rw [hdrop]
      exact ht

/-- C1: the email-shape check is a pure string-to-boolean function that
accepts exactly the strings of the form `local@domain.tld` — one or more
non-whitespace non-`@` characters, a single `@`, one or more
non-whitespace non-`@` characters, a literal `.`, and two or more ASCII
letters of either case, anchored at both ends — and in particular it
rejects `abc`, `a@b`, `a@b.c` and `a@@b.com`. -/
theorem isValidEmail_matches_shape :
    (∀ s : String, isValidEmail s = true ↔ emailShapeSpec s) ∧
    isValidEmail "abc" = false ∧ isValidEmail "a@b" = false ∧
    isValidEmail "a@b.c" = false ∧ isValidEmail "a@@b.com" = false :=
  ⟨isValidEmail_iff, by decide, by decide, by decide, by decide⟩

/-- Witness for C1 at the concrete address `user@example.com`: the check
accepts it, hence it has the specified shape. -/
theorem isValidEmail_matches_shape_witness :
    isValidEmail "user@example.com" = true ∧ emailShapeSpec "user@example.com" :=
  ⟨by decide, (isValidEmail_matches_shape.1 "user@example.com").mp (by decide)⟩
